import Mathlib

/-!
Shallow embedding of asphalt-sqlalchemy's `SQLAlchemyComponent` and the
`apply_sqlite_hacks` utility, covering the bind-resolution logic of
`__init__`, the resource registration performed by `start()`, and the
session teardown hooks, for both the current revision
(`src/asphalt/sqlalchemy/component.py` and `_component.py`) and the
early revision (`asphalt/sqlalchemy/component.py`).

Python dictionaries are modelled as association lists of string keys to
`PyVal` values; side effects (engine creation, event-hook installation,
resource registration, pool disposal) are modelled as an ordered trace
of `Effect` values; exceptions are modelled with `Except`/`Option` over
the `PyErr` type.
-/

namespace AsphaltSqlalchemy

/-- A Python value stored in an options dictionary (only the shapes the
component actually stores: booleans, strings, `None`). -/
inductive PyVal
  | bool (b : Bool)
  | str (s : String)
  | pyNone
deriving DecidableEq, Repr

/-- A Python `dict` with string keys, as an ordered association list
(Python dicts preserve insertion order). -/
abbrev Dict := List (String × PyVal)

/-- `d[k]` lookup: the value stored under `k`, if any. -/
def dictGet (d : Dict) (k : String) : Option PyVal :=
  match d with
  | [] => none
  | (k2, v) :: rest => if k2 = k then some v else dictGet rest k

/-- `d[k] = v`: replace the value under `k` in place, or append the new
entry if the key is absent. -/
def dictSet (d : Dict) (k : String) (v : PyVal) : Dict :=
  match d with
  | [] => [(k, v)]
  | (k2, v2) :: rest =>
      if k2 = k then (k2, v) :: rest else (k2, v2) :: dictSet rest k v

/-- `d.setdefault(k, v)`: return the stored value if present, otherwise
insert `v` under `k`; yields the resulting value and the updated dict. -/
def dictSetdefault (d : Dict) (k : String) (v : PyVal) : PyVal × Dict :=
  match dictGet d k with
  | some v2 => (v2, d)
  | none => (v, d ++ [(k, v)])

/-- Delete the entry under `k` (no-op if absent). -/
def dictRemove (d : Dict) (k : String) : Dict :=
  match d with
  | [] => []
  | (k2, v2) :: rest =>
      if k2 = k then rest else (k2, v2) :: dictRemove rest k

/-- `d.pop(k, default)`: the stored value (or the default) together with
the dict with the entry removed. -/
def dictPop (d : Dict) (k : String) (dflt : PyVal) : PyVal × Dict :=
  match dictGet d k with
  | some v => (v, dictRemove d k)
  | none => (dflt, d)

/-! ## Session teardown hooks -/

/-- A call made on a session object during teardown. -/
inductive SessionOp
  | commit
  | rollback
  | close
deriving DecidableEq, Repr

/-- The observable behaviour of one session at teardown time:
whether a transaction is open (`Session.in_transaction()` in the current
revisions, `Session.is_active` in the early revision), and which of the
finalization calls would raise (the raised exception, if any). -/
structure SessionBehavior where
  inTransaction : Bool
  commitErr : Option String
  rollbackErr : Option String
  closeErr : Option String
deriving DecidableEq, Repr

/-- The `teardown_session` coroutine registered by
`SQLAlchemyComponent.create_session` / `create_async_session` in the
current revisions (`component.py` lines 172-205, `_component.py` lines
173-205; `_component.py` reads the terminating exception from
`sys.exc_info()` instead of a parameter, with the same decision
structure):

```
try:
    if session.in_transaction():
        if exception is None: ...session.commit...
        else: ...session.rollback...
finally:
    session.close()
```

Returns the ordered trace of session calls and the exception that
propagates out of the hook, if any (per Python `finally` semantics an
exception raised by `close` supersedes one raised by commit/rollback). -/
def teardown_session (s : SessionBehavior) (exception : Option String) :
    List SessionOp × Option String :=
  let tryPart : List SessionOp × Option String :=
    if s.inTransaction then
      match exception with
      | none => ([SessionOp.commit], s.commitErr)
      | some _ => ([SessionOp.rollback], s.rollbackErr)
    else ([], none)
  (tryPart.1 ++ [SessionOp.close],
   match s.closeErr with
   | some e => some e
   | none => tryPart.2)

/-- The `teardown_session` coroutine of the early revision
(`asphalt/sqlalchemy/component.py` lines 114-129):

```
try:
    if exception is None and session.is_active:
        await call_in_executor(session.commit, executor=self.commit_executor)
finally:
    del session.info['ctx']
    session.close()
```

Note: no rollback call in any branch; when the owning scope ended with
an exception the session is merely closed. -/
def teardown_session_v1 (s : SessionBehavior) (exception : Option String) :
    List SessionOp × Option String :=
  let tryPart : List SessionOp × Option String :=
    match exception with
    | none =>
        if s.inTransaction then ([SessionOp.commit], s.commitErr)
        else ([], none)
    | some _ => ([], none)
  (tryPart.1 ++ [SessionOp.close],
   match s.closeErr with
   | some e => some e
   | none => tryPart.2)

example :
    (teardown_session ⟨true, none, none, none⟩ none).1
      = [SessionOp.commit, SessionOp.close] := by decide

example :
    (teardown_session ⟨true, none, none, none⟩ (some "boom")).1
      = [SessionOp.rollback, SessionOp.close] := by decide

example :
    (teardown_session_v1 ⟨true, none, none, none⟩ (some "boom")).1
      = [SessionOp.close] := by decide

/-! ## Bind resolution (`SQLAlchemyComponent.__init__`) -/

/-- The exceptions the embedded code can raise or propagate. -/
inductive PyErr
  | typeError (msg : String)
  | valueError (msg : String)
  | invalidRequestError
  | otherCreateError (msg : String)
  | readyCallbackError
deriving DecidableEq, Repr

/-- An SQLAlchemy engine, identified by the name of its dialect
(whether it is sync or async is tracked by the `Bind` constructor or the
engine-creation effect that produced it). -/
structure EngineV where
  dialect : String
deriving DecidableEq, Repr

/-- A possible value for the component's `bind` argument: a synchronous
`Connection` or `Engine`, an `AsyncConnection` or `AsyncEngine` (each
carrying the engine reachable through its `.engine` attribute, itself
for the engine cases), or an object of some other, unrecognized type. -/
inductive Bind
  | conn (engine : EngineV)
  | asyncConn (engine : EngineV)
  | eng (engine : EngineV)
  | asyncEng (engine : EngineV)
  | other (typename : String)
deriving DecidableEq, Repr

/-- A parsed database URL: its resolved dialect name, and the outcome of
handing it to `create_engine` (`syncErr`) or `create_async_engine`
(`asyncErr`) — `none` means creation succeeds, `some e` means the call
raises `e` (`invalidRequestError` is what SQLAlchemy raises when the
URL's driver does not support the requested sync/async mode). -/
structure UrlV where
  dialect : String
  syncErr : Option PyErr
  asyncErr : Option PyErr
deriving DecidableEq, Repr

/-- The component's `url` argument before normalization: a string (fed
to `make_url`), a ready-made `URL` object, or a dict of `URL.create`
keyword arguments.  Each carries the `UrlV` it denotes. -/
inductive UrlArg
  | str (u : UrlV)
  | url (u : UrlV)
  | dict (u : UrlV)
deriving DecidableEq, Repr

/-- `url.get_dialect().name` after normalization. -/
def UrlArg.toUrl : UrlArg → UrlV
  | .str u => u
  | .url u => u
  | .dict u => u

/-- A resource kind registered by `start()`. -/
inductive ResourceKind
  | engineRes
  | sessionFactoryRes
  | asyncSessionFactoryRes
  | sessionRes
  | asyncSessionRes
deriving DecidableEq, Repr

/-- A pool-disposal action: `Engine.dispose()` called directly, or
`AsyncEngine.dispose()` awaited. -/
inductive Dispose
  | sync (e : EngineV)
  | awaited (e : EngineV)
deriving DecidableEq, Repr

/-- The event hooks `apply_sqlite_hacks` installs. -/
inductive HookAction
  | setIsolationLevelNone
  | execDriverSql (stmt : String)
deriving DecidableEq, Repr

/-- The event names `apply_sqlite_hacks` listens on. -/
inductive HookEvent
  | connectEvent
  | beginEvent
deriving DecidableEq, Repr

/-- The engine-options mapping.  `connectArgs` is the dict stored under
the `"connect_args"` key when that key is present; the remaining
entries are opaque to the component and kept in `rest`. -/
structure EngineArgs where
  connectArgs : Option Dict
  rest : Dict
deriving DecidableEq, Repr

/-- An observable side effect of `__init__`/`start()`, in program
order: an engine-creation call (recording the engine options in force at
that moment), an `event.listen` registration, the ready callback
running to completion (its awaitable awaited), a resource or
resource-factory registration (`addResource` records the teardown
callback attached to the resource, if any), a teardown-callback
registration, commit-executor creation, or a pool disposal. -/
inductive Effect
  | createSyncEngine (u : UrlV) (args : EngineArgs)
  | createAsyncEngine (u : UrlV) (args : EngineArgs)
  | listen (ev : HookEvent) (act : HookAction)
  | readyCallback
  | addResource (k : ResourceKind) (td : Option Dispose)
  | addResourceFactory (k : ResourceKind)
  | addTeardownCallback
  | createCommitExecutor
  | dispose (d : Dispose)
deriving DecidableEq, Repr

/-- `apply_sqlite_hacks` (`utils.py` lines 57-92): raise `ValueError`
unless the engine's dialect is `"sqlite"`, otherwise install the
`do_connect` hook (which sets the DBAPI connection's `isolation_level`
to `None`) on `"connect"` and the `do_begin` hook (which runs
`conn.exec_driver_sql("BEGIN")`) on `"begin"`.  Returns the trace of
installed hooks and the raised exception, if any. -/
def apply_sqlite_hacks (engine : EngineV) : List Effect × Option PyErr :=
  if ¬ engine.dialect = "sqlite" then
    ([], some (PyErr.valueError
      ("SQLite hacks can only applied to an engine with dialect " ++
       "'sqlite', not " ++ engine.dialect)))
  else
    ([Effect.listen .connectEvent .setIsolationLevelNone,
      Effect.listen .beginEvent (.execDriverSql "BEGIN")], none)

/-- The sqlite `connect_args` hack (`component.py` lines 135-137):

```
connect_args = engine_args.setdefault("connect_args", {})
connect_args.setdefault("check_same_thread", False)
```
-/
def sqliteConnectArgsHack (ea : EngineArgs) : EngineArgs :=
  let ca := ea.connectArgs.getD []
  let ca := (dictSetdefault ca "check_same_thread" (PyVal.bool false)).2
  { ea with connectArgs := some ca }

/-- `create_engine(url, **engine_args)`: succeeds with a sync engine of
the URL's dialect, or raises the URL's sync-creation error. -/
def create_engine (u : UrlV) : Except PyErr EngineV :=
  match u.syncErr with
  | none => .ok ⟨u.dialect⟩
  | some e => .error e

/-- `create_async_engine(url, **engine_args)`: succeeds with an async
engine of the URL's dialect, or raises the URL's async-creation
error. -/
def create_async_engine (u : UrlV) : Except PyErr EngineV :=
  match u.asyncErr with
  | none => .ok ⟨u.dialect⟩
  | some e => .error e

/-- The component state established by a successful `__init__`:
`self.engine`, whether it is an `AsyncEngine` (which selects the async
path everywhere downstream), `self._bind` / `self._async_bind` (whichever
was assigned), and the final engine/session option dicts. -/
structure InitState where
  engine : EngineV
  isAsync : Bool
  syncBind : Option Bind
  asyncBind : Option Bind
  engineArgs : EngineArgs
  sessionArgs : Dict
deriving DecidableEq, Repr

/-- Engine creation with sync/async fallback (`component.py` lines
142-160): with `prefer_async` try `create_async_engine` first and fall
back to `create_engine` if it raised `InvalidRequestError` (any other
exception, and any exception of the fallback call, propagates);
without `prefer_async`, the mirror image.  Returns the trace of
creation attempts and either the `(engine, isAsync)` outcome or the
propagated error. -/
def engineFromUrl (preferAsync : Bool) (u : UrlV) (ea : EngineArgs) :
    List Effect × Except PyErr (EngineV × Bool) :=
  if preferAsync then
    match create_async_engine u with
    | .ok e => ([Effect.createAsyncEngine u ea], .ok (e, true))
    | .error PyErr.invalidRequestError =>
        match create_engine u with
        | .ok e =>
            ([Effect.createAsyncEngine u ea, Effect.createSyncEngine u ea],
             .ok (e, false))
        | .error e2 =>
            ([Effect.createAsyncEngine u ea, Effect.createSyncEngine u ea],
             .error e2)
    | .error e => ([Effect.createAsyncEngine u ea], .error e)
  else
    match create_engine u with
    | .ok e => ([Effect.createSyncEngine u ea], .ok (e, false))
    | .error PyErr.invalidRequestError =>
        match create_async_engine u with
        | .ok e =>
            ([Effect.createSyncEngine u ea, Effect.createAsyncEngine u ea],
             .ok (e, true))
        | .error e2 =>
            ([Effect.createSyncEngine u ea, Effect.createAsyncEngine u ea],
             .error e2)
    | .error e => ([Effect.createSyncEngine u ea], .error e)

/-- `SQLAlchemyComponent.__init__` (`component.py` lines 91-170;
`_component.py` lines 88-171 has the same decision structure), reduced
to its observable behaviour: force `expire_on_commit = False` into the
session options; if a (truthy) `bind` was given, classify it by type
with no engine creation; otherwise normalize the URL (raising
`TypeError` when it is `None` too), apply the sqlite `connect_args`
hack when the dialect is `"sqlite"`, create the engine with sync/async
fallback, and apply `apply_sqlite_hacks` to the created engine when the
dialect is `"sqlite"`.  Returns the effect trace and either the
resulting component state or the raised exception. -/
def componentInit (url : Option UrlArg) (bind : Option Bind)
    (preferAsync : Bool) (engineArgs : EngineArgs) (sessionArgs : Dict) :
    List Effect × Except PyErr InitState :=
  let sessionArgs := dictSet sessionArgs "expire_on_commit" (PyVal.bool false)
  match bind with
  | some b =>
      match b with
      | .conn e =>
          ([], .ok ⟨e, false, some b, none, engineArgs, sessionArgs⟩)
      | .asyncConn e =>
          ([], .ok ⟨e, true, none, some b, engineArgs, sessionArgs⟩)
      | .eng e =>
          ([], .ok ⟨e, false, some b, none, engineArgs, sessionArgs⟩)
      | .asyncEng e =>
          ([], .ok ⟨e, true, none, some b, engineArgs, sessionArgs⟩)
      | .other typename =>
          ([], .error (PyErr.typeError
            ("Incompatible bind argument: " ++ typename)))
  | none =>
      match url with
      | none =>
          ([], .error (PyErr.typeError "both \x22url\x22 and \x22bind\x22 cannot be None"))
      | some urlArg =>
          let u := urlArg.toUrl
          let engineArgs :=
            if u.dialect = "sqlite" then sqliteConnectArgsHack engineArgs
            else engineArgs
          match engineFromUrl preferAsync u engineArgs with
          | (t, .error e) => (t, .error e)
          | (t, .ok (engine, isAsync)) =>
              let hacks :=
                if u.dialect = "sqlite" then apply_sqlite_hacks engine
                else ([], none)
              match hacks with
              | (t2, some e) => (t ++ t2, .error e)
              | (t2, none) =>
                  (t ++ t2, .ok ⟨engine, isAsync,
                    if isAsync then none else some (Bind.eng engine),
                    if isAsync then some (Bind.asyncEng engine) else none,
                    engineArgs, sessionArgs⟩)

example :
    componentInit none none true ⟨none, []⟩ []
      = ([], .error (PyErr.typeError "both \x22url\x22 and \x22bind\x22 cannot be None")) := rfl

example :
    (componentInit (some (.str ⟨"sqlite", none, some .invalidRequestError⟩))
      none true ⟨none, []⟩ []).2
      = .ok ⟨⟨"sqlite"⟩, false, some (Bind.eng ⟨"sqlite"⟩), none,
          ⟨some [("check_same_thread", PyVal.bool false)], []⟩,
          [("expire_on_commit", PyVal.bool false)]⟩ := rfl

/-! ## `start()` of the current `component.py` revision -/

/-- `SQLAlchemyComponent.start` up to its `yield` (`component.py` lines
207-249): run (and, if it returned an awaitable, await) the ready
callback when one was configured, then register the resources — for an
async engine the engine, the async sessionmaker and the async-session
resource factory; for a sync engine first create the commit executor
and register its shutdown as a teardown callback, then register the
engine, the sessionmaker and the session resource factory.  `readyErr`
is the exception the ready callback raises, if any; it aborts `start()`
before anything else happens.  Resources registered by this revision
carry no per-resource teardown callback. -/
def componentStart (st : InitState) (hasReady : Bool) (readyErr : Option PyErr) :
    List Effect × Option PyErr :=
  let pre : List Effect := if hasReady then [Effect.readyCallback] else []
  if hasReady then
    match readyErr with
    | some e => (pre, some e)
    | none =>
        if st.isAsync then
          (pre ++ [Effect.addResource .engineRes none,
                   Effect.addResource .asyncSessionFactoryRes none,
                   Effect.addResourceFactory .asyncSessionRes], none)
        else
          (pre ++ [Effect.createCommitExecutor,
                   Effect.addTeardownCallback,
                   Effect.addResource .engineRes none,
                   Effect.addResource .sessionFactoryRes none,
                   Effect.addResourceFactory .sessionRes], none)
  else
    if st.isAsync then
      ([Effect.addResource .engineRes none,
        Effect.addResource .asyncSessionFactoryRes none,
        Effect.addResourceFactory .asyncSessionRes], none)
    else
      ([Effect.createCommitExecutor,
        Effect.addTeardownCallback,
        Effect.addResource .engineRes none,
        Effect.addResource .sessionFactoryRes none,
        Effect.addResourceFactory .sessionRes], none)

/-- The teardown side of `SQLAlchemyComponent.start` (`component.py`
lines 251-254), run when the owning context resumes the generator after
`yield`:

```
if isinstance(bind, Engine): bind.dispose()
elif isinstance(bind, AsyncEngine): await bind.dispose()
```

`bind` is `self._async_bind` on the async path and `self._bind` on the
sync path, so a `Connection`/`AsyncConnection` bind is not disposed. -/
def componentStartTeardown (st : InitState) : List Effect :=
  let bind := if st.isAsync then st.asyncBind else st.syncBind
  match bind with
  | some (Bind.eng e) => [Effect.dispose (Dispose.sync e)]
  | some (Bind.asyncEng e) => [Effect.dispose (Dispose.awaited e)]
  | _ => []

/-- One full pass through the current `component.py` revision:
`__init__` followed (on success) by the registration part of `start()`,
with the effect traces concatenated.  An `__init__` exception prevents
`start()` from running at all (the component object never exists). -/
def componentRun (url : Option UrlArg) (bind : Option Bind)
    (preferAsync : Bool) (engineArgs : EngineArgs) (sessionArgs : Dict)
    (hasReady : Bool) (readyErr : Option PyErr) :
    List Effect × Option PyErr :=
  match componentInit url bind preferAsync engineArgs sessionArgs with
  | (t, .error e) => (t, some e)
  | (t, .ok st) =>
      let (t2, err) := componentStart st hasReady readyErr
      (t ++ t2, err)

/-! ## `start()` of the `_component.py` revision -/

/-- The per-branch engine teardown callback computed by
`_component.py` `start` (lines 216-219 and 249-252).  BOTH branches
guard on `isinstance(bind, AsyncEngine)`; in the sync branch `bind` is
`self._bind : Connection | Engine`, so the guard is never satisfied
there and the callback stays `None`.  When the guard holds, the
registered callback is `self._engine.dispose` — awaited for an async
engine, a direct call for a sync one. -/
def engineTeardownCallback_b (st : InitState) (bind : Option Bind) :
    Option Dispose :=
  match bind with
  | some (Bind.asyncEng _) =>
      some (if st.isAsync then Dispose.awaited st.engine
            else Dispose.sync st.engine)
  | _ => none

/-- `SQLAlchemyComponent.start` of the `_component.py` revision (lines
207-276): run and await the ready callback when configured, then
register the resources — for an async engine the engine resource (with
the computed teardown callback), the sync sessionmaker, the async
sessionmaker and the async-session factory; for a sync engine the
engine resource (with the computed teardown callback), the sessionmaker
and the session factory.  No commit executor is created here (this
revision makes a `CapacityLimiter` in `__init__`). -/
def componentStart_b (st : InitState) (hasReady : Bool)
    (readyErr : Option PyErr) : List Effect × Option PyErr :=
  let pre : List Effect := if hasReady then [Effect.readyCallback] else []
  match hasReady, readyErr with
  | true, some e => (pre, some e)
  | _, _ =>
      if st.isAsync then
        (pre ++ [Effect.addResource .engineRes
                   (engineTeardownCallback_b st st.asyncBind),
                 Effect.addResource .sessionFactoryRes none,
                 Effect.addResource .asyncSessionFactoryRes none,
                 Effect.addResourceFactory .asyncSessionRes], none)
      else
        (pre ++ [Effect.addResource .engineRes
                   (engineTeardownCallback_b st st.syncBind),
                 Effect.addResource .sessionFactoryRes none,
                 Effect.addResourceFactory .sessionRes], none)

/-- One full pass through the `_component.py` revision: `__init__`
followed (on success) by `start()`. -/
def componentRun_b (url : Option UrlArg) (bind : Option Bind)
    (preferAsync : Bool) (engineArgs : EngineArgs) (sessionArgs : Dict)
    (hasReady : Bool) (readyErr : Option PyErr) :
    List Effect × Option PyErr :=
  match componentInit url bind preferAsync engineArgs sessionArgs with
  | (t, .error e) => (t, some e)
  | (t, .ok st) =>
      let (t2, err) := componentStart_b st hasReady readyErr
      (t ++ t2, err)

/-- The dispose effects that the owning context runs at teardown under
the `_component.py` revision: exactly the teardown callbacks attached
to the resources registered during `start()`. -/
def contextTeardownDisposes (trace : List Effect) : List Effect :=
  trace.foldr
    (fun e acc =>
      match e with
      | Effect.addResource _ (some d) => Effect.dispose d :: acc
      | _ => acc) []

/-- The teardown effects of one full pass through the current
`component.py` revision: when `__init__` succeeded, the dispose effects
run by the generator part of `start()` after its `yield` (a failed
`__init__` leaves nothing to tear down). -/
def componentRunTeardown (url : Option UrlArg) (bind : Option Bind)
    (preferAsync : Bool) (engineArgs : EngineArgs) (sessionArgs : Dict) :
    List Effect :=
  match componentInit url bind preferAsync engineArgs sessionArgs with
  | (_, .error _) => []
  | (_, .ok st) => componentStartTeardown st

/-- Effects that register a resource or a resource factory. -/
def isResourceReg : Effect → Bool
  | .addResource _ _ => true
  | .addResourceFactory _ => true
  | _ => false

/-- Effects that can occur during `__init__` (engine creation and
event-hook installation). -/
def isBuildEffect : Effect → Bool
  | .createSyncEngine _ _ => true
  | .createAsyncEngine _ _ => true
  | .listen _ _ => true
  | _ => false

/-- Engine-creation effects. -/
def isCreateEffect : Effect → Bool
  | .createSyncEngine _ _ => true
  | .createAsyncEngine _ _ => true
  | _ => false

/-! ## Session options and the session factory -/

/-- The `expire_on_commit` setting of sessions produced by
`sessionmaker(**session_args)` / `async_sessionmaker(**session_args)`.
Modelled from SQLAlchemy's documented behaviour (an external
collaborator of this repository): the option defaults to `True` when
the arguments do not mention it. -/
def sessionExpireOnCommit (sessionArgs : Dict) : PyVal :=
  (dictGet sessionArgs "expire_on_commit").getD (PyVal.bool true)

/-- The session-options processing of the early revision's `__init__`
(`asphalt/sqlalchemy/component.py` lines 67-71):

```
session = session or {}
session.setdefault('expire_on_commit', False)
...
self.session_context_attr = session.pop('context_attr', 'dbsession')
self.sessionmaker = sessionmaker(**session)
```

Returns the argument dict handed to `sessionmaker` and the popped
`context_attr` value. -/
def sessionConfig_v1 (session : Dict) : Dict × PyVal :=
  let session := (dictSetdefault session "expire_on_commit" (PyVal.bool false)).2
  let (attr, session) := dictPop session "context_attr" (PyVal.str "dbsession")
  (session, attr)

/-! ## Helper lemmas about the dictionary model -/

theorem dictGet_dictSet_self (d : Dict) (k : String) (v : PyVal) :
    dictGet (dictSet d k v) k = some v := by
  induction d with
  | nil => simp [dictSet, dictGet]
  | cons hd tl ih =>
      obtain ⟨k2, v2⟩ := hd
      by_cases hk : k2 = k <;> simp [dictSet, dictGet, hk, ih]

theorem dictGet_append_single_self (d : Dict) (k : String) (v : PyVal)
    (h : dictGet d k = none) : dictGet (d ++ [(k, v)]) k = some v := by
  induction d with
  | nil => simp [dictGet]
  | cons hd tl ih =>
      obtain ⟨k2, v2⟩ := hd
      by_cases hk : k2 = k
      · simp [dictGet, hk] at h
      · simp [dictGet, hk] at h ⊢
        exact ih h

theorem dictGet_dictRemove_ne (d : Dict) {k k2 : String} (h : k2 ≠ k) :
    dictGet (dictRemove d k2) k = dictGet d k := by
  induction d with
  | nil => simp [dictRemove]
  | cons hd tl ih =>
      obtain ⟨k3, v3⟩ := hd
      by_cases hk3 : k3 = k2
      · subst hk3
        simp [dictRemove, dictGet, h, Ne.symm h]
      · by_cases hk : k3 = k <;>
          simp [dictRemove, dictGet, hk3, hk, ih, Ne.symm h]

theorem dictGet_dictSetdefault (d : Dict) (k : String) (v : PyVal) :
    dictGet (dictSetdefault d k v).2 k
      = some ((dictGet d k).getD v) := by
  unfold dictSetdefault
  match h : dictGet d k with
  | some v2 => simp [h]
  | none => simp [h, dictGet_append_single_self d k v h]

theorem dictGet_dictPop_ne (d : Dict) {k k2 : String} (dflt : PyVal)
    (h : k2 ≠ k) : dictGet (dictPop d k2 dflt).2 k = dictGet d k := by
  unfold dictPop
  match h2 : dictGet d k2 with
  | some v => simp [dictGet_dictRemove_ne d h]
  | none => simp

/-! ## Inversion lemmas about the embedded component -/

theorem engineFromUrl_trace (preferAsync : Bool) (u : UrlV) (ea : EngineArgs) :
    ∀ x ∈ (engineFromUrl preferAsync u ea).1,
      x = Effect.createSyncEngine u ea ∨ x = Effect.createAsyncEngine u ea := by
  unfold engineFromUrl
  split <;> split <;> try split
  all_goals simp_all

theorem create_engine_ok (u : UrlV) (e : EngineV)
    (h : create_engine u = .ok e) : e = ⟨u.dialect⟩ := by
  unfold create_engine at h
  cases hse : u.syncErr <;> rw [hse] at h <;> simp_all

theorem create_async_engine_ok (u : UrlV) (e : EngineV)
    (h : create_async_engine u = .ok e) : e = ⟨u.dialect⟩ := by
  unfold create_async_engine at h
  cases hse : u.asyncErr <;> rw [hse] at h <;> simp_all

theorem engineFromUrl_ok (preferAsync : Bool) (u : UrlV) (ea : EngineArgs)
    (t : List Effect) (e : EngineV) (ia : Bool)
    (h : engineFromUrl preferAsync u ea = (t, .ok (e, ia))) :
    e = ⟨u.dialect⟩ := by
  unfold engineFromUrl at h
  split at h <;> split at h <;> try split at h
  all_goals simp_all
  all_goals
    rename_i heq
    obtain ⟨-, he, -⟩ := h
    subst he
    first
    | exact create_async_engine_ok _ _ heq
    | exact create_engine_ok _ _ heq

/-- Inversion of the URL branch of `componentInit`: a successful run
created its engine through `engineFromUrl` on the (possibly
sqlite-hacked) engine options, stored those options and the forced
session options, and appended exactly the two sqlite event hooks to the
creation trace when the dialect is `"sqlite"` (and nothing
otherwise). -/
theorem componentInit_url_some_ok (urlArg : UrlArg) (preferAsync : Bool)
    (ea : EngineArgs) (sa : Dict) (t : List Effect) (st : InitState)
    (h : componentInit (some urlArg) none preferAsync ea sa = (t, .ok st)) :
    ∃ tcreate,
      engineFromUrl preferAsync urlArg.toUrl
          (if urlArg.toUrl.dialect = "sqlite" then sqliteConnectArgsHack ea
           else ea)
        = (tcreate, .ok (st.engine, st.isAsync))
      ∧ st.engine = ⟨urlArg.toUrl.dialect⟩
      ∧ st.engineArgs
          = (if urlArg.toUrl.dialect = "sqlite" then sqliteConnectArgsHack ea
             else ea)
      ∧ st.sessionArgs = dictSet sa "expire_on_commit" (PyVal.bool false)
      ∧ ((urlArg.toUrl.dialect = "sqlite" ∧
            t = tcreate ++
              [Effect.listen .connectEvent .setIsolationLevelNone,
               Effect.listen .beginEvent (.execDriverSql "BEGIN")])
         ∨ (¬ urlArg.toUrl.dialect = "sqlite" ∧ t = tcreate)) := by
  have h2 : (match engineFromUrl preferAsync urlArg.toUrl
        (if urlArg.toUrl.dialect = "sqlite" then sqliteConnectArgsHack ea
         else ea) with
      | (tc, .error e) => (tc, Except.error e)
      | (tc, .ok (engine, isAsync)) =>
          match (if urlArg.toUrl.dialect = "sqlite" then
                   apply_sqlite_hacks engine
                 else ([], none)) with
          | (t2, some e) => (tc ++ t2, Except.error e)
          | (t2, none) =>
              (tc ++ t2, Except.ok
                ({ engine := engine, isAsync := isAsync,
                   syncBind :=
                     if isAsync then none else some (Bind.eng engine),
                   asyncBind :=
                     if isAsync then some (Bind.asyncEng engine) else none,
                   engineArgs :=
                     if urlArg.toUrl.dialect = "sqlite" then
                       sqliteConnectArgsHack ea
                     else ea,
                   sessionArgs :=
                     dictSet sa "expire_on_commit" (PyVal.bool false) } :
                  InitState)))
      = (t, .ok st) := h
  clear h
  rcases hef : engineFromUrl preferAsync urlArg.toUrl
      (if urlArg.toUrl.dialect = "sqlite" then sqliteConnectArgsHack ea
       else ea) with ⟨tc, res⟩
  rw [hef] at h2
  cases res with
  | error e => simp at h2
  | ok pr =>
      obtain ⟨engine, isAsync⟩ := pr
      have hengine : engine = ⟨urlArg.toUrl.dialect⟩ :=
        engineFromUrl_ok _ _ _ _ _ _ hef
      by_cases hd : urlArg.toUrl.dialect = "sqlite"
      · have hdial : engine.dialect = "sqlite" := by rw [hengine, hd]
        have hhack : apply_sqlite_hacks engine
            = ([Effect.listen .connectEvent .setIsolationLevelNone,
                Effect.listen .beginEvent (.execDriverSql "BEGIN")], none) := by
          simp [apply_sqlite_hacks, hdial]
        simp only [if_pos hd, hhack, Prod.mk.injEq, Except.ok.injEq] at h2
        obtain ⟨ht, hst⟩ := h2
        subst hst
        subst ht
        refine ⟨tc, ?_, hengine, ?_, rfl, Or.inl ⟨hd, rfl⟩⟩
        · rfl
        · rw [if_pos hd]
      · simp only [if_neg hd, Prod.mk.injEq, Except.ok.injEq,
          List.append_nil] at h2
        obtain ⟨ht, hst⟩ := h2
        subst hst
        subst ht
        refine ⟨tc, ?_, hengine, ?_, rfl, Or.inr ⟨hd, rfl⟩⟩
        · rfl
        · rw [if_neg hd]

theorem apply_sqlite_hacks_trace (e : EngineV) :
    ∀ x ∈ (apply_sqlite_hacks e).1, isBuildEffect x = true := by
  unfold apply_sqlite_hacks
  split <;> simp [isBuildEffect]

/-- Every effect of `__init__` is an engine creation or an event-hook
installation; in particular `__init__` registers no resources and does
not run the ready callback. -/
theorem componentInit_buildTrace (url : Option UrlArg) (bind : Option Bind)
    (preferAsync : Bool) (ea : EngineArgs) (sa : Dict) :
    ∀ x ∈ (componentInit url bind preferAsync ea sa).1,
      isBuildEffect x = true := by
  cases bind with
  | some b => cases b <;> simp [componentInit]
  | none =>
      cases url with
      | none => simp [componentInit]
      | some urlArg =>
          show ∀ x ∈ (match engineFromUrl preferAsync urlArg.toUrl
              (if urlArg.toUrl.dialect = "sqlite" then sqliteConnectArgsHack ea
               else ea) with
            | (tc, .error e) => (tc, Except.error e)
            | (tc, .ok (engine, isAsync)) =>
                match (if urlArg.toUrl.dialect = "sqlite" then
                         apply_sqlite_hacks engine
                       else ([], none)) with
                | (t2, some e) => (tc ++ t2, Except.error e)
                | (t2, none) =>
                    (tc ++ t2, Except.ok
                      ({ engine := engine, isAsync := isAsync,
                         syncBind :=
                           if isAsync then none else some (Bind.eng engine),
                         asyncBind :=
                           if isAsync then some (Bind.asyncEng engine)
                           else none,
                         engineArgs :=
                           if urlArg.toUrl.dialect = "sqlite" then
                             sqliteConnectArgsHack ea
                           else ea,
                         sessionArgs :=
                           dictSet sa "expire_on_commit" (PyVal.bool false) } :
                        InitState))).1, isBuildEffect x = true
          have hcr := engineFromUrl_trace preferAsync urlArg.toUrl
            (if urlArg.toUrl.dialect = "sqlite" then sqliteConnectArgsHack ea
             else ea)
          rcases hef : engineFromUrl preferAsync urlArg.toUrl
              (if urlArg.toUrl.dialect = "sqlite" then sqliteConnectArgsHack ea
               else ea) with ⟨tc, res⟩
          rw [hef] at hcr
          have htc : ∀ x ∈ tc, isBuildEffect x = true := by
            intro x hx
            rcases hcr x hx with h1 | h1 <;> rw [h1] <;> rfl
          cases res with
          | error e => exact htc
          | ok pr =>
              obtain ⟨engine, isAsync⟩ := pr
              rcases hhack : (if urlArg.toUrl.dialect = "sqlite" then
                  apply_sqlite_hacks engine
                else ([], none)) with ⟨t2, herr⟩
              have ht2 : ∀ x ∈ t2, isBuildEffect x = true := by
                intro x hx
                by_cases hd : urlArg.toUrl.dialect = "sqlite"
                · rw [if_pos hd] at hhack
                  have := apply_sqlite_hacks_trace engine
                  rw [hhack] at this
                  exact this x hx
                · rw [if_neg hd] at hhack
                  simp only [Prod.mk.injEq] at hhack
                  rw [← hhack.1] at hx
                  simp at hx
              cases herr with
              | some e =>
                  simp only [hhack]
                  intro x hx
                  rcases List.mem_append.mp hx with h1 | h1
                  · exact htc x h1
                  · exact ht2 x h1
              | none =>
                  simp only [hhack]
                  intro x hx
                  rcases List.mem_append.mp hx with h1 | h1
                  · exact htc x h1
                  · exact ht2 x h1

theorem buildEffect_props (x : Effect) (h : isBuildEffect x = true) :
    isResourceReg x = false ∧ (x != Effect.readyCallback) = true := by
  cases x <;> simp_all [isBuildEffect, isResourceReg]

theorem takeWhile_append_all {α : Type} (p : α → Bool) (l1 l2 : List α)
    (h : ∀ x ∈ l1, p x = true) :
    (l1 ++ l2).takeWhile p = l1 ++ l2.takeWhile p := by
  induction l1 with
  | nil => simp
  | cons a tl ih =>
      have ha : p a = true := h a (List.mem_cons_self a tl)
      simp only [List.cons_append, List.takeWhile_cons, ha, if_true]
      rw [ih (fun x hx => h x (List.mem_cons_of_mem a hx))]

theorem filter_takeWhile_nil {α : Type} (p q : α → Bool) (l : List α)
    (h : l.filter q = []) : (l.takeWhile p).filter q = [] := by
  have hs : List.Sublist ((l.takeWhile p).filter q) (l.filter q) :=
    (List.takeWhile_sublist p).filter q
  rw [h] at hs
  exact List.sublist_nil.mp hs

theorem noReg_filter (t0 L : List Effect)
    (h0 : ∀ x ∈ t0, isBuildEffect x = true)
    (hL : L.filter isResourceReg = []) :
    (t0 ++ L).filter isResourceReg = [] := by
  rw [List.filter_append, hL, List.append_nil, List.filter_eq_nil_iff]
  intro x hx
  simp [(buildEffect_props x (h0 x hx)).1]

theorem noReg_before_ready (t0 L : List Effect)
    (h0 : ∀ x ∈ t0, isBuildEffect x = true) :
    ((t0 ++ Effect.readyCallback :: L).takeWhile
        (fun e => e != Effect.readyCallback)).filter isResourceReg = [] := by
  rw [takeWhile_append_all _ t0 _
      (fun x hx => (buildEffect_props x (h0 x hx)).2)]
  rw [List.takeWhile_cons_of_neg (by simp), List.append_nil,
      List.filter_eq_nil_iff]
  intro x hx
  simp [(buildEffect_props x (h0 x hx)).1]

/-- Any component state produced by a successful `__init__` carries the
session options with `expire_on_commit` overwritten to `False`. -/
theorem componentInit_ok_sessionArgs (url : Option UrlArg) (bind : Option Bind)
    (preferAsync : Bool) (ea : EngineArgs) (sa : Dict) (t : List Effect)
    (st : InitState)
    (h : componentInit url bind preferAsync ea sa = (t, .ok st)) :
    st.sessionArgs = dictSet sa "expire_on_commit" (PyVal.bool false) := by
  cases bind with
  | some b =>
      cases b with
      | other typename => simp [componentInit] at h
      | conn e =>
          simp only [componentInit, Prod.mk.injEq, Except.ok.injEq] at h
          rw [← h.2]
      | asyncConn e =>
          simp only [componentInit, Prod.mk.injEq, Except.ok.injEq] at h
          rw [← h.2]
      | eng e =>
          simp only [componentInit, Prod.mk.injEq, Except.ok.injEq] at h
          rw [← h.2]
      | asyncEng e =>
          simp only [componentInit, Prod.mk.injEq, Except.ok.injEq] at h
          rw [← h.2]
  | none =>
      cases url with
      | none => simp [componentInit] at h
      | some urlArg =>
          exact (componentInit_url_some_ok urlArg preferAsync ea sa t st
            h).choose_spec.2.2.2.1

/-! ## Claim theorems -/

/-- C1 (counterexample): the claim states that a teardown hook firing
while the session has an active transaction calls `rollback` when the
owning scope ended with a terminating exception.  The early revision's
hook (`teardown_session_v1`) refutes this: with an active transaction
and a terminating exception it only closes the session and never calls
`rollback`. -/
theorem sqlalchemy_C1_counterexample :
    (teardown_session_v1 ⟨true, none, none, none⟩ (some "boom")).1
        = [SessionOp.close]
    ∧ SessionOp.rollback ∉
        (teardown_session_v1 ⟨true, none, none, none⟩ (some "boom")).1 := by
  constructor
  · rfl
  · decide

/-- C1 (amended): in the current revisions the hook calls `commit`
exactly when a transaction is active and the scope ended cleanly, calls
`rollback` exactly when a transaction is active and the scope ended
with an exception, and calls neither when no transaction is active; in
the early revision the hook calls `commit` exactly when the scope ended
cleanly with an active transaction and never calls `rollback`. -/
theorem sqlalchemy_C1_amended (s : SessionBehavior) (exception : Option String) :
    (SessionOp.commit ∈ (teardown_session s exception).1
        ↔ s.inTransaction = true ∧ exception = none)
    ∧ (SessionOp.rollback ∈ (teardown_session s exception).1
        ↔ s.inTransaction = true ∧ exception ≠ none)
    ∧ (SessionOp.commit ∈ (teardown_session_v1 s exception).1
        ↔ exception = none ∧ s.inTransaction = true)
    ∧ SessionOp.rollback ∉ (teardown_session_v1 s exception).1 := by
  obtain ⟨it, ce, re, cle⟩ := s
  cases it <;> cases exception <;>
    simp [teardown_session, teardown_session_v1]

/-- C2: every teardown hook of every revision closes the session on
every exit path (the trace always ends with `close`, whether or not a
transaction was active and whether or not commit/rollback raised), and
when `close` itself does not raise, an exception raised by commit or
rollback propagates out of the hook after the close. -/
theorem sqlalchemy_C2 (s : SessionBehavior) (exception : Option String) :
    (teardown_session s exception).1.getLast? = some SessionOp.close
    ∧ (teardown_session_v1 s exception).1.getLast? = some SessionOp.close
    ∧ (s.closeErr = none → s.inTransaction = true → exception = none →
        (teardown_session s exception).2 = s.commitErr)
    ∧ (s.closeErr = none → s.inTransaction = true → exception ≠ none →
        (teardown_session s exception).2 = s.rollbackErr) := by
  obtain ⟨it, ce, re, cle⟩ := s
  cases it <;> cases exception <;> cases cle <;>
    simp [teardown_session, teardown_session_v1]

/-- C2 witness: a session with an active transaction whose commit
raises `"boom"` on a clean scope exit is still closed (the trace ends
with `close`) and the commit exception propagates. -/
theorem sqlalchemy_C2_witness :
    (teardown_session ⟨true, some "boom", none, none⟩ none).1.getLast?
        = some SessionOp.close
    ∧ (teardown_session ⟨true, some "boom", none, none⟩ none).2 = some "boom" :=
  ⟨(sqlalchemy_C2 ⟨true, some "boom", none, none⟩ none).1,
   (sqlalchemy_C2 ⟨true, some "boom", none, none⟩ none).2.2.1 rfl rfl rfl⟩

/-- C4 (counterexample): the claim states that the session factory
always produces sessions with `expire_on_commit = False`, even when the
caller explicitly passes `expire_on_commit = True`.  The early
revision's session-options processing (`sessionConfig_v1`, which uses
`setdefault`) refutes this: a caller-supplied `True` is preserved, and
the resulting factory produces sessions that expire on commit. -/
theorem sqlalchemy_C4_counterexample :
    sessionExpireOnCommit
        (sessionConfig_v1 [("expire_on_commit", PyVal.bool true)]).1
      = PyVal.bool true := by decide

/-- C4 (amended): in the current revisions `__init__` forces
`expire_on_commit = False` unconditionally (any component state it
produces yields sessions with the option disabled, whatever the caller
passed in `session_args`); the early revision only defaults the option,
so its factory uses the caller-supplied value when one is present and
`False` otherwise. -/
theorem sqlalchemy_C4_amended (url : Option UrlArg) (bind : Option Bind)
    (preferAsync : Bool) (ea : EngineArgs) (sa : Dict) (t : List Effect)
    (st : InitState)
    (h : componentInit url bind preferAsync ea sa = (t, .ok st)) :
    sessionExpireOnCommit st.sessionArgs = PyVal.bool false
    ∧ ∀ sa2 : Dict,
        sessionExpireOnCommit (sessionConfig_v1 sa2).1
          = (dictGet sa2 "expire_on_commit").getD (PyVal.bool false) := by
  constructor
  · rw [sessionExpireOnCommit,
        componentInit_ok_sessionArgs url bind preferAsync ea sa t st h,
        dictGet_dictSet_self]
    rfl
  · intro sa2
    unfold sessionConfig_v1 sessionExpireOnCommit
    rw [dictGet_dictPop_ne _ _ (by decide),
        dictGet_dictSetdefault]
    cases dictGet sa2 "expire_on_commit" <;> rfl

/-- C4 witness: constructing the current component with a sync engine
bind and `session_args = {expire_on_commit: True}` yields a session
factory whose sessions have `expire_on_commit = False`. -/
theorem sqlalchemy_C4_witness :
    sessionExpireOnCommit [("expire_on_commit", PyVal.bool false)]
      = PyVal.bool false :=
  (sqlalchemy_C4_amended none (some (Bind.eng ⟨"postgresql"⟩)) true ⟨none, []⟩
    [("expire_on_commit", PyVal.bool true)] []
    ⟨⟨"postgresql"⟩, false, some (Bind.eng ⟨"postgresql"⟩), none, ⟨none, []⟩,
      [("expire_on_commit", PyVal.bool false)]⟩ rfl).1

/-- C5: constructing the component with both `url` and `bind` absent
raises `TypeError` with an empty effect trace — in particular no
engine-creation effect has occurred. -/
theorem sqlalchemy_C5 (preferAsync : Bool) (ea : EngineArgs) (sa : Dict) :
    componentInit none none preferAsync ea sa
      = ([], .error (PyErr.typeError
          "both \x22url\x22 and \x22bind\x22 cannot be None")) := rfl

/-- C6: a supplied bind object is stored verbatim with an empty effect
trace (no engine is created, whatever `url` says): a sync `Connection`
or `Engine` selects the synchronous path (`isAsync = false`, the bind
stored in `_bind`), an `AsyncConnection` or `AsyncEngine` the
asynchronous path (`isAsync = true`, the bind stored in `_async_bind`),
and any other type raises `TypeError`. -/
theorem sqlalchemy_C6 (url : Option UrlArg) (preferAsync : Bool)
    (ea : EngineArgs) (sa : Dict) (e : EngineV) (typename : String) :
    (componentInit url (some (Bind.conn e)) preferAsync ea sa
        = ([], .ok ⟨e, false, some (Bind.conn e), none, ea,
            dictSet sa "expire_on_commit" (PyVal.bool false)⟩))
    ∧ (componentInit url (some (Bind.eng e)) preferAsync ea sa
        = ([], .ok ⟨e, false, some (Bind.eng e), none, ea,
            dictSet sa "expire_on_commit" (PyVal.bool false)⟩))
    ∧ (componentInit url (some (Bind.asyncConn e)) preferAsync ea sa
        = ([], .ok ⟨e, true, none, some (Bind.asyncConn e), ea,
            dictSet sa "expire_on_commit" (PyVal.bool false)⟩))
    ∧ (componentInit url (some (Bind.asyncEng e)) preferAsync ea sa
        = ([], .ok ⟨e, true, none, some (Bind.asyncEng e), ea,
            dictSet sa "expire_on_commit" (PyVal.bool false)⟩))
    ∧ (componentInit url (some (Bind.other typename)) preferAsync ea sa
        = ([], .error (PyErr.typeError
            ("Incompatible bind argument: " ++ typename)))) :=
  ⟨rfl, rfl, rfl, rfl, rfl⟩

/-- C3: for one full pass through either current revision, a run that
ends in an exception (from `__init__` or from the ready callback)
registers no resource and no resource factory, and when a ready
callback is configured, no resource or resource-factory registration
occurs before the completed ready-callback step (awaiting an awaitable
result is part of that step). -/
theorem sqlalchemy_C3 (url : Option UrlArg) (bind : Option Bind)
    (preferAsync : Bool) (ea : EngineArgs) (sa : Dict)
    (hasReady : Bool) (readyErr : Option PyErr) :
    ((componentRun url bind preferAsync ea sa hasReady readyErr).2.isSome
        = true →
      (componentRun url bind preferAsync ea sa hasReady readyErr).1.filter
        isResourceReg = [])
    ∧ (hasReady = true →
        ((componentRun url bind preferAsync ea sa hasReady
            readyErr).1.takeWhile
          (fun e => e != Effect.readyCallback)).filter isResourceReg = [])
    ∧ ((componentRun_b url bind preferAsync ea sa hasReady readyErr).2.isSome
        = true →
      (componentRun_b url bind preferAsync ea sa hasReady readyErr).1.filter
        isResourceReg = [])
    ∧ (hasReady = true →
        ((componentRun_b url bind preferAsync ea sa hasReady
            readyErr).1.takeWhile
          (fun e => e != Effect.readyCallback)).filter isResourceReg = []) := by
  have hbuild := componentInit_buildTrace url bind preferAsync ea sa
  rcases hinit : componentInit url bind preferAsync ea sa with ⟨t0, res⟩
  rw [hinit] at hbuild
  have hbuild2 : ∀ x ∈ t0, isBuildEffect x = true := hbuild
  have ht0f : t0.filter isResourceReg = [] := by
    rw [List.filter_eq_nil_iff]
    intro x hx
    simp [(buildEffect_props x (hbuild2 x hx)).1]
  cases res with
  | error e =>
      have hrun : componentRun url bind preferAsync ea sa hasReady readyErr
          = (t0, some e) := by
        unfold componentRun
        rw [hinit]
      have hrun_b : componentRun_b url bind preferAsync ea sa hasReady readyErr
          = (t0, some e) := by
        unfold componentRun_b
        rw [hinit]
      rw [hrun, hrun_b]
      exact ⟨fun _ => ht0f, fun _ => filter_takeWhile_nil _ _ _ ht0f,
             fun _ => ht0f, fun _ => filter_takeWhile_nil _ _ _ ht0f⟩
  | ok st =>
      obtain ⟨eng, ia, sb, ab, eargs, sargs⟩ := st
      have hrun : componentRun url bind preferAsync ea sa hasReady readyErr
          = (t0 ++ (componentStart ⟨eng, ia, sb, ab, eargs, sargs⟩ hasReady
                readyErr).1,
             (componentStart ⟨eng, ia, sb, ab, eargs, sargs⟩ hasReady
                readyErr).2) := by
        unfold componentRun
        rw [hinit]
      have hrun_b : componentRun_b url bind preferAsync ea sa hasReady readyErr
          = (t0 ++ (componentStart_b ⟨eng, ia, sb, ab, eargs, sargs⟩ hasReady
                readyErr).1,
             (componentStart_b ⟨eng, ia, sb, ab, eargs, sargs⟩ hasReady
                readyErr).2) := by
        unfold componentRun_b
        rw [hinit]
      rw [hrun, hrun_b]
      cases hasReady <;> rcases readyErr with _ | e2 <;> cases ia <;>
        refine ⟨?_, ?_, ?_, ?_⟩ <;> intro hc <;>
        first
        | (exfalso
           revert hc
           simp [componentStart, componentStart_b]
           done)
        | exact noReg_filter t0 _ hbuild2 rfl
        | exact noReg_before_ready t0 _ hbuild2

/-- C3 witness: a run whose ready callback raises ends with the error
and an effect trace containing no resource registration at all. -/
theorem sqlalchemy_C3_witness :
    ((componentRun none (some (Bind.eng ⟨"postgresql"⟩)) true ⟨none, []⟩ []
        true (some PyErr.readyCallbackError)).1.filter isResourceReg = [])
    ∧ (((componentRun_b none (some (Bind.eng ⟨"postgresql"⟩)) true ⟨none, []⟩
          [] true (some PyErr.readyCallbackError)).1.takeWhile
        (fun e => e != Effect.readyCallback)).filter isResourceReg = []) :=
  ⟨(sqlalchemy_C3 none (some (Bind.eng ⟨"postgresql"⟩)) true ⟨none, []⟩ [] true
      (some PyErr.readyCallbackError)).1 rfl,
   (sqlalchemy_C3 none (some (Bind.eng ⟨"postgresql"⟩)) true ⟨none, []⟩ [] true
      (some PyErr.readyCallbackError)).2.2.2 rfl⟩

/-- C7: creating an engine from a URL with `prefer_async` first calls
`create_async_engine` (the first creation effect is always the async
one); when that raises `InvalidRequestError` it falls back to
`create_engine` (and only then — any other exception propagates without
a fallback attempt); with `prefer_async = False` the order is exactly
reversed. -/
theorem sqlalchemy_C7 (u : UrlV) (ea : EngineArgs) :
    ((engineFromUrl true u ea).1.head?
        = some (Effect.createAsyncEngine u ea))
    ∧ (u.asyncErr = none →
        engineFromUrl true u ea
          = ([Effect.createAsyncEngine u ea], .ok (⟨u.dialect⟩, true)))
    ∧ (u.asyncErr = some PyErr.invalidRequestError →
        (engineFromUrl true u ea).1
            = [Effect.createAsyncEngine u ea, Effect.createSyncEngine u ea]
        ∧ (u.syncErr = none →
            engineFromUrl true u ea
              = ([Effect.createAsyncEngine u ea,
                  Effect.createSyncEngine u ea], .ok (⟨u.dialect⟩, false))))
    ∧ (∀ e, u.asyncErr = some e → e ≠ PyErr.invalidRequestError →
        engineFromUrl true u ea = ([Effect.createAsyncEngine u ea], .error e))
    ∧ ((engineFromUrl false u ea).1.head?
        = some (Effect.createSyncEngine u ea))
    ∧ (u.syncErr = none →
        engineFromUrl false u ea
          = ([Effect.createSyncEngine u ea], .ok (⟨u.dialect⟩, false)))
    ∧ (u.syncErr = some PyErr.invalidRequestError →
        (engineFromUrl false u ea).1
            = [Effect.createSyncEngine u ea, Effect.createAsyncEngine u ea]
        ∧ (u.asyncErr = none →
            engineFromUrl false u ea
              = ([Effect.createSyncEngine u ea,
                  Effect.createAsyncEngine u ea], .ok (⟨u.dialect⟩, true))))
    ∧ (∀ e, u.syncErr = some e → e ≠ PyErr.invalidRequestError →
        engineFromUrl false u ea
          = ([Effect.createSyncEngine u ea], .error e)) := by
  refine ⟨?_, ?_, ?_, ?_, ?_, ?_, ?_, ?_⟩
  · unfold engineFromUrl
    rcases hca : create_async_engine u with e | e
    · cases e
      all_goals
        first
        | rfl
        | (rcases hcs : create_engine u with e2 | e2 <;> rfl)
    · rfl
  · intro hae
    unfold engineFromUrl create_async_engine
    rw [hae]
    rfl
  · intro hae
    unfold engineFromUrl create_async_engine
    rw [hae]
    constructor
    · rcases hcs : create_engine u with e2 | e2 <;> rfl
    · intro hse
      unfold create_engine
      rw [hse]
      rfl
  · intro e hae hne
    unfold engineFromUrl create_async_engine
    rw [hae]
    cases e <;> first | exact absurd rfl hne | rfl
  · unfold engineFromUrl
    rcases hcs : create_engine u with e | e
    · cases e
      all_goals
        first
        | rfl
        | (rcases hca : create_async_engine u with e2 | e2 <;> rfl)
    · rfl
  · intro hse
    unfold engineFromUrl create_engine
    rw [hse]
    rfl
  · intro hse
    unfold engineFromUrl create_engine
    rw [hse]
    constructor
    · rcases hca : create_async_engine u with e2 | e2 <;> rfl
    · intro hae
      unfold create_async_engine
      rw [hae]
      rfl
  · intro e hse hne
    unfold engineFromUrl create_engine
    rw [hse]
    cases e <;> first | exact absurd rfl hne | rfl

/-- C7 witness: an sqlite URL (async creation raises
`InvalidRequestError`, sync creation succeeds) under `prefer_async`
yields the async attempt followed by the sync fallback, resolving to a
synchronous engine. -/
theorem sqlalchemy_C7_witness :
    engineFromUrl true ⟨"sqlite", none, some PyErr.invalidRequestError⟩
        ⟨none, []⟩
      = ([Effect.createAsyncEngine
            ⟨"sqlite", none, some PyErr.invalidRequestError⟩ ⟨none, []⟩,
          Effect.createSyncEngine
            ⟨"sqlite", none, some PyErr.invalidRequestError⟩ ⟨none, []⟩],
         .ok (⟨"sqlite"⟩, false)) :=
  ((sqlalchemy_C7 ⟨"sqlite", none, some PyErr.invalidRequestError⟩
      ⟨none, []⟩).2.2.1 rfl).2 rfl

/-- C8: for a URL whose resolved dialect is `"sqlite"` and whose engine
options do not already set a `check_same_thread` connect argument, a
successful `__init__` (a) leaves `check_same_thread = False` in the
stored connect arguments, (b) already had that value in force in the
engine options of every engine-creation call, and (c) ends its effect
trace with exactly the two sqlite event hooks — `connect` setting the
driver's `isolation_level` to `None` and `begin` issuing an explicit
`BEGIN` — preceded only by engine-creation effects. -/
theorem sqlalchemy_C8 (urlArg : UrlArg) (preferAsync : Bool)
    (ea : EngineArgs) (sa : Dict) (t : List Effect) (st : InitState)
    (hd : urlArg.toUrl.dialect = "sqlite")
    (hca : dictGet (ea.connectArgs.getD []) "check_same_thread" = none)
    (h : componentInit (some urlArg) none preferAsync ea sa = (t, .ok st)) :
    dictGet (st.engineArgs.connectArgs.getD []) "check_same_thread"
        = some (PyVal.bool false)
    ∧ (∀ u2 args, (Effect.createSyncEngine u2 args ∈ t ∨
          Effect.createAsyncEngine u2 args ∈ t) →
        dictGet (args.connectArgs.getD []) "check_same_thread"
          = some (PyVal.bool false))
    ∧ ∃ t0, t = t0 ++ [Effect.listen .connectEvent .setIsolationLevelNone,
                       Effect.listen .beginEvent (.execDriverSql "BEGIN")]
        ∧ ∀ x ∈ t0, isCreateEffect x = true := by
  obtain ⟨tc, hef, hengine, hargs, hsargs, hdisj⟩ :=
    componentInit_url_some_ok urlArg preferAsync ea sa t st h
  rw [if_pos hd] at hef hargs
  have hkey : dictGet ((sqliteConnectArgsHack ea).connectArgs.getD [])
      "check_same_thread" = some (PyVal.bool false) := by
    show dictGet ((dictSetdefault (ea.connectArgs.getD [])
        "check_same_thread" (PyVal.bool false)).2) "check_same_thread"
      = some (PyVal.bool false)
    rw [dictGet_dictSetdefault, hca]
    rfl
  have htc : ∀ x ∈ tc,
      x = Effect.createSyncEngine urlArg.toUrl (sqliteConnectArgsHack ea)
      ∨ x = Effect.createAsyncEngine urlArg.toUrl (sqliteConnectArgsHack ea) := by
    have h2 := engineFromUrl_trace preferAsync urlArg.toUrl
      (sqliteConnectArgsHack ea)
    rw [hef] at h2
    exact h2
  rcases hdisj with ⟨-, ht⟩ | ⟨hd2, -⟩
  · refine ⟨?_, ?_, ⟨tc, ht, ?_⟩⟩
    · rw [hargs]
      exact hkey
    · intro u2 args hmem
      rcases hmem with hm | hm <;>
        ( rw [ht] at hm
          rcases List.mem_append.mp hm with hm2 | hm2
          · rcases htc _ hm2 with he | he
            all_goals
              first
              | ( injection he with h1 h2
                  rw [h2]
                  exact hkey )
              | simp at he
          · simp at hm2 )
    · intro x hx
      rcases htc x hx with he | he <;> rw [he] <;> rfl
  · exact absurd hd hd2

/-- C8 witness: an sqlite URL with empty engine options, under
`prefer_async`, yields a component state whose stored connect arguments
carry `check_same_thread = False`. -/
theorem sqlalchemy_C8_witness :
    dictGet (((⟨some [("check_same_thread", PyVal.bool false)], []⟩ :
        EngineArgs).connectArgs).getD []) "check_same_thread"
      = some (PyVal.bool false) :=
  (sqlalchemy_C8 (.str ⟨"sqlite", none, some PyErr.invalidRequestError⟩) true
    ⟨none, []⟩ []
    [Effect.createAsyncEngine ⟨"sqlite", none, some PyErr.invalidRequestError⟩
       ⟨some [("check_same_thread", PyVal.bool false)], []⟩,
     Effect.createSyncEngine ⟨"sqlite", none, some PyErr.invalidRequestError⟩
       ⟨some [("check_same_thread", PyVal.bool false)], []⟩,
     Effect.listen .connectEvent .setIsolationLevelNone,
     Effect.listen .beginEvent (.execDriverSql "BEGIN")]
    ⟨⟨"sqlite"⟩, false, some (Bind.eng ⟨"sqlite"⟩), none,
      ⟨some [("check_same_thread", PyVal.bool false)], []⟩,
      [("expire_on_commit", PyVal.bool false)]⟩
    rfl rfl rfl).1

/-- C9: against the `_component.py` revision the claim fails on the
synchronous side — a component holding a synchronous `Engine` bind
registers its engine resource with teardown callback `None` (the guard
`isinstance(bind, AsyncEngine)` in the sync branch is never satisfied),
so the full run produces no dispose effect on context teardown, while
an `AsyncEngine` bind is disposed with an await, and the current
`component.py` revision disposes a synchronous engine directly after
its `yield`. -/
theorem sqlalchemy_C9_sync_engine_not_disposed :
    contextTeardownDisposes
        (componentRun_b none (some (Bind.eng ⟨"postgresql"⟩)) true ⟨none, []⟩
          [] false none).1 = []
    ∧ contextTeardownDisposes
        (componentRun_b none (some (Bind.asyncEng ⟨"postgresql"⟩)) true
          ⟨none, []⟩ [] false none).1
        = [Effect.dispose (Dispose.awaited ⟨"postgresql"⟩)]
    ∧ componentRunTeardown none (some (Bind.eng ⟨"postgresql"⟩)) true
        ⟨none, []⟩ []
        = [Effect.dispose (Dispose.sync ⟨"postgresql"⟩)]
    ∧ componentRunTeardown none (some (Bind.asyncEng ⟨"postgresql"⟩)) true
        ⟨none, []⟩ []
        = [Effect.dispose (Dispose.awaited ⟨"postgresql"⟩)] :=
  ⟨rfl, rfl, rfl, rfl⟩

/-- C10: `apply_sqlite_hacks` on an engine whose dialect is not
`"sqlite"` raises `ValueError` and installs no event hooks; on an
sqlite engine it installs exactly the two hooks and raises nothing. -/
theorem sqlalchemy_C10 (e : EngineV) :
    (¬ e.dialect = "sqlite" →
      apply_sqlite_hacks e
        = ([], some (PyErr.valueError
            ("SQLite hacks can only applied to an engine with dialect " ++
             "'sqlite', not " ++ e.dialect))))
    ∧ (e.dialect = "sqlite" →
      apply_sqlite_hacks e
        = ([Effect.listen .connectEvent .setIsolationLevelNone,
            Effect.listen .beginEvent (.execDriverSql "BEGIN")], none)) := by
  constructor <;> intro hd <;> simp [apply_sqlite_hacks, hd]

/-- C10 witness: on a postgresql engine the call raises `ValueError`
with an empty hook trace; on an sqlite engine it installs the two
hooks. -/
theorem sqlalchemy_C10_witness :
    apply_sqlite_hacks ⟨"postgresql"⟩
      = ([], some (PyErr.valueError
          ("SQLite hacks can only applied to an engine with dialect " ++
           "'sqlite', not " ++ "postgresql")))
    ∧ apply_sqlite_hacks ⟨"sqlite"⟩
      = ([Effect.listen .connectEvent .setIsolationLevelNone,
          Effect.listen .beginEvent (.execDriverSql "BEGIN")], none) :=
  ⟨(sqlalchemy_C10 ⟨"postgresql"⟩).1 (by decide),
   (sqlalchemy_C10 ⟨"sqlite"⟩).2 rfl⟩

end AsphaltSqlalchemy
